import Mathlib

/-
Verification of the lpi-control-demo repository: a leaky
proportional-integral (LPI) controller model together with its
cost-evaluation and differential-evolution fitting entry points.

The embedding models real-valued Python floats as rationals (ℚ); all the
claims under study are exact algebraic statements, so no rounding model is
needed.  External numeric primitives (scipy's `solve_ivp` ODE solver and
`differential_evolution` optimizer, and `interp1d`) are modelled as
function parameters: the repository's code never inspects their internals,
only their results.  Python exceptions are modelled with an `Except PyErr`
result type.
-/

/-- Python runtime errors that the modelled code paths can raise. -/
inductive PyErr where
  /-- numpy/list `IndexError` from an out-of-range index. -/
  | indexError : PyErr
  /-- Python `NameError`: a reference to an undefined name. -/
  | nameError : String → PyErr
  /-- Python `ValueError` carrying its message. -/
  | valueError : String → PyErr
  /-- Python `ZeroDivisionError` from float/int division by zero. -/
  | zeroDivisionError : PyErr
deriving DecidableEq, Repr

/-- Equality of modelled Python results is decidable (core provides no
such instance for `Except`). -/
instance {ε α : Type} [DecidableEq ε] [DecidableEq α] :
    DecidableEq (Except ε α) := fun a b =>
  match a, b with
  | Except.ok u, Except.ok v =>
      if h : u = v then Decidable.isTrue (by rw [h])
      else Decidable.isFalse (fun hc => h (Except.ok.inj hc))
  | Except.ok _, Except.error _ =>
      Decidable.isFalse (fun hc => Except.noConfusion hc)
  | Except.error _, Except.ok _ =>
      Decidable.isFalse (fun hc => Except.noConfusion hc)
  | Except.error e, Except.error f =>
      if h : e = f then Decidable.isTrue (by rw [h])
      else Decidable.isFalse (fun hc => h (Except.error.inj hc))

/-- Python/numpy indexing `l[i]` on a 1-D array: the element, or
`IndexError`. -/
def pyIdx (l : List ℚ) (i : ℕ) : Except PyErr ℚ :=
  match l.get? i with
  | some v => Except.ok v
  | none => Except.error PyErr.indexError

/-- Python/numpy indexing `l[-1]` on a 1-D array: the last element, or
`IndexError` when the array is empty. -/
def pyIdxLast (l : List ℚ) : Except PyErr ℚ :=
  match l.getLast? with
  | some v => Except.ok v
  | none => Except.error PyErr.indexError

/-- The parameter dictionary consumed by `LPIController.__init__`
(src/lpi_control_demo/lpi_controller.py): damping coefficient, proportional
gain, integral gain, integrator leak, set-point signal and disable signal.
The `disable` key defaults to `false_func` at the call sites that omit it;
here the field is always present, with `fun _ => false` standing for
`false_func`. -/
structure ControllerParam where
  dcoef : ℚ
  pgain : ℚ
  igain : ℚ
  ileak : ℚ
  setpt : ℚ → ℚ
  disable : ℚ → Bool

/-- Embeds `LPIController.state_func` (lpi_controller.py lines 45-53): the state
derivative.  The source allocates `dy = np.zeros(y.shape)` and then assigns
`dy[0]` and `dy[1]` in each branch; the pair mirrors those two writes. -/
def state_func (c : ControllerParam) (t : ℚ) (y : ℚ × ℚ) : ℚ × ℚ :=
  let dy : ℚ × ℚ := (0, 0)
  if c.disable t then
    let dy := (-c.dcoef * y.1 + y.2, dy.2)
    let dy := (dy.1, -c.ileak * y.2)
    dy
  else
    let err := c.setpt t - y.1
    let dy := (-c.dcoef * y.1 + y.2 + c.pgain * err, dy.2)
    let dy := (dy.1, -c.ileak * y.2 + c.igain * err)
    dy

/-- The result record of scipy's `solve_ivp`: the convergence flag and the
solution array `y` of shape (2, N), modelled as its two rows (angular
velocity row and angular acceleration row). -/
structure IvpResult where
  success : Bool
  y : List ℚ × List ℚ
deriving DecidableEq, Repr

/-- The type of the external `scipy.integrate.solve_ivp` collaborator, as
invoked by `LPIController.solve`: arguments are the state function, the
`(t_min, t_max)` span, the initial state, the `t_eval` array, the method
name and the `max_step` bound. -/
def SolveIvp : Type :=
  (ℚ → ℚ × ℚ → ℚ × ℚ) → (ℚ × ℚ) → (ℚ × ℚ) → List ℚ → String → ℚ → IvpResult

/-- Embeds `LPIController.solve` (lpi_controller.py lines 78-90).  The source reads
`t_vals[0]`, `t_vals[-1]` and then `t_vals[1]` unconditionally, builds
`max_step = t_vals[1] - t_vals[0]`, calls `solve_ivp` and returns
`result.y` without inspecting `result.success`. -/
def solve (ivp : SolveIvp) (c : ControllerParam) (t_vals : List ℚ)
    (y_init : Option (ℚ × ℚ)) (method : String) :
    Except PyErr (List ℚ × List ℚ) := do
  let y0 := y_init.getD (0, 0)
  let t_min ← pyIdx t_vals 0
  let t_max ← pyIdxLast t_vals
  let t_second ← pyIdx t_vals 1
  let max_step := t_second - t_min
  let result := ivp (state_func c) (t_min, t_max) y0 t_vals method max_step
  pure result.y

/-- Embeds `LPIController.get_determinant` (lpi_controller.py line 96). -/
def get_determinant (c : ControllerParam) : ℚ :=
  c.ileak * (c.pgain + c.dcoef) + c.igain

/-- Embeds `LPIController.get_trace` (lpi_controller.py line 102). -/
def get_trace (c : ControllerParam) : ℚ :=
  -(c.pgain + c.dcoef + c.ileak)

/-- Embeds `LPIController.get_discriminant` (lpi_controller.py line 108). -/
def get_discriminant (c : ControllerParam) : ℚ :=
  (get_trace c) ^ 2 - 4 * get_determinant c

/-- The matrix `A = [[-(pgain + dcoef), 1], [-igain, -ileak]]` built inside
`LPIController.get_eigenvalues` (lpi_controller.py line 114). -/
def sysMatrix (c : ControllerParam) : Matrix (Fin 2) (Fin 2) ℚ :=
  !![-(c.pgain + c.dcoef), 1; -c.igain, -c.ileak]

/-- The source's `get_eigenvalues` returns `np.linalg.eig(A)`, whose first component is
the list of eigenvalues of `A` (complex-valued in general).  A complex
number `lam` is an eigenvalue of the real 2×2 matrix `A` exactly when
`det (A - lam • I) = 0`; this predicate characterises the values
`np.linalg.eig` may return as eigenvalues. -/
def is_eigenvalue (c : ControllerParam) (lam : ℂ) : Prop :=
  Matrix.det ((sysMatrix c).map (fun q => (q : ℂ)) - lam • 1) = 0

/-- The four numeric gains of a fitted parameter dictionary (the `dcoef`,
`pgain`, `igain`, `ileak` keys shared by every variant's `param` dict in
src/lpi_control_demo/model_fitting.py). -/
structure GainParam where
  dcoef : ℚ
  pgain : ℚ
  igain : ℚ
  ileak : ℚ
deriving DecidableEq, Repr

/-- Attach set-point and disable signals to a gain record, as done when the
`param` dict (with its `setpt`/`disable` keys) is handed to
`LPIController`. -/
def mkController (g : GainParam) (setpt : ℚ → ℚ) (disable : ℚ → Bool) :
    ControllerParam :=
  ⟨g.dcoef, g.pgain, g.igain, g.ileak, setpt, disable⟩

/-- The variant dispatch shared by `cost_func`, `ensemble_cost_func` and the
result-unpacking steps of `fit_controller` / `ensemble_fit_controller`
(model_fitting.py): map the optimizer vector `x` to the gain dictionary,
padding the unused gains with `0.0`; an unrecognized controller name raises
`ValueError(f'unknown controller type {controller}')`.  A Python
`match`/`case` on strings is sequential equality testing, hence the
if-chain. -/
def unpack_gains (x : List ℚ) (controller : String) :
    Except PyErr GainParam :=
  if controller = "lpi" then do
    let a ← pyIdx x 0
    let b ← pyIdx x 1
    let c ← pyIdx x 2
    let d ← pyIdx x 3
    pure ⟨a, b, c, d⟩
  else if controller = "pi" then do
    let a ← pyIdx x 0
    let b ← pyIdx x 1
    let c ← pyIdx x 2
    pure ⟨a, b, c, 0⟩
  else if controller = "p" then do
    let a ← pyIdx x 0
    let b ← pyIdx x 1
    pure ⟨a, b, 0, 0⟩
  else
    Except.error (PyErr.valueError ("unknown controller type " ++ controller))

/-- numpy elementwise subtraction of two 1-D arrays.  Arrays of unequal
length fail to broadcast with a `ValueError` (the length-1 scalar-broadcast
special case is not modelled; no claim exercises it). -/
def npSub (a b : List ℚ) : Except PyErr (List ℚ) :=
  if a.length = b.length then
    Except.ok (List.zipWith (fun u v => u - v) a b)
  else
    Except.error (PyErr.valueError "operands could not be broadcast together")

/-- The residual reduction `np.sum((omega_fit - omega)**2)/omega.shape[0]`
shared by `cost_func` (model_fitting.py line 387) and the loop body of
`ensemble_cost_func` (line 179).  For empty `omega` numpy returns `nan`
(float division by zero warns, it does not raise); ℚ has no `nan`, so the
embedding is only meaningful for nonempty `omega` and every theorem about
it assumes that. -/
def sq_residual_cost (omega_fit omega : List ℚ) : Except PyErr ℚ := do
  let d ← npSub omega_fit omega
  pure ((d.map (fun v => v ^ 2)).sum / (omega.length : ℚ))

/-- The per-dataset simulation-and-residual computation: build the
controller from the gains and the dataset's signal adapters, solve at the
dataset's time points with method `'RK23'`, and reduce the first solution
row against the observed `omega`.  This is the body shared (textually
duplicated in the source) by `cost_func` after unpacking and by each
iteration of the `ensemble_cost_func` dataset loop. -/
def dataset_cost (ivp : SolveIvp) (g : GainParam) (t omega : List ℚ)
    (setpt_func : ℚ → ℚ) (disable_func : ℚ → Bool) : Except PyErr ℚ := do
  let y ← solve ivp (mkController g setpt_func disable_func) t none "RK23"
  sq_residual_cost y.1 omega

/-- Embeds `cost_func` (model_fitting.py lines 311-390).  When `disp_cost` is set
the source prints the in-scope name `cost`, which emits output but leaves
the returned value untouched. -/
def cost_func (ivp : SolveIvp) (x : List ℚ) (t : List ℚ) (omega : List ℚ)
    (setpt_func : ℚ → ℚ) (disable_func : ℚ → Bool) (disp_cost : Bool)
    (controller : String) : Except PyErr ℚ := do
  let g ← unpack_gains x controller
  let cost ← dataset_cost ivp g t omega setpt_func disable_func
  pure cost

/-- A dataset dict as consumed by `ensemble_cost_func`: the raw `t` and
`omega` arrays plus the `setpt_func`/`disable_func` interpolation adapters
installed by `ensemble_fit_controller` (the other raw keys are unused once
the adapters exist). -/
structure Dataset where
  t : List ℚ
  omega : List ℚ
  setpt_func : ℚ → ℚ
  disable_func : ℚ → Bool

/-- Embeds `ensemble_cost_func` (model_fitting.py lines 116-184).  The dataset
loop accumulates the per-dataset costs; `total_cost/len(datasets)` is a
Python float-by-int division, so an empty dataset list raises
`ZeroDivisionError`.  The final `if disp_cost:` branch prints the name
`totalcost`, which is undefined (the accumulator is named `total_cost`),
so a truthy `disp_cost` raises `NameError` after the loop completes. -/
def ensemble_cost_func (ivp : SolveIvp) (x : List ℚ)
    (datasets : List Dataset) (disp_cost : Bool) (controller : String) :
    Except PyErr ℚ := do
  let g ← unpack_gains x controller
  let costs ← datasets.mapM
    (fun ds => dataset_cost ivp g ds.t ds.omega ds.setpt_func ds.disable_func)
  if datasets.length = 0 then
    Except.error PyErr.zeroDivisionError
  else do
    let total_cost := costs.sum / (datasets.length : ℚ)
    if disp_cost then
      Except.error (PyErr.nameError "totalcost")
    else
      pure total_cost

/-- The result record of scipy's `differential_evolution`: the winning
parameter vector `x` (diagnostics such as iteration counts are not read by
the code paths under study). -/
structure OptResult where
  x : List ℚ

/-- The type of the external `scipy.optimize.differential_evolution`
collaborator as invoked by the fitting entry points: it receives the
objective (already closed over its extra `args`) and the bound list, and
returns a result record. -/
def Optimizer : Type :=
  (List ℚ → Except PyErr ℚ) → List (ℚ × ℚ) → OptResult

/-- The bound-construction dispatch shared by `fit_controller`
(model_fitting.py lines 249-257) and `ensemble_fit_controller` (lines
59-67): select the variant's bounds in the canonical order
`dcoef, pgain, igain, ileak`, truncated to the variant's length; an
unrecognized controller name raises
`ValueError(f'unknown controller type {controller}')`.  `bounds` models
the bounds dict as a total map (no claim exercises a missing key). -/
def select_bounds (bounds : String → ℚ × ℚ) (controller : String) :
    Except PyErr (List (ℚ × ℚ)) :=
  if controller = "lpi" then
    Except.ok [bounds "dcoef", bounds "pgain", bounds "igain", bounds "ileak"]
  else if controller = "pi" then
    Except.ok [bounds "dcoef", bounds "pgain", bounds "igain"]
  else if controller = "p" then
    Except.ok [bounds "dcoef", bounds "pgain"]
  else
    Except.error (PyErr.valueError ("unknown controller type " ++ controller))

/-- The type of the external `scipy.interpolate.interp1d` collaborator
wrapped by `create_interp_func` (model_fitting.py lines 394-396): sample
times and sample values to a continuous callable. -/
def Interp : Type := List ℚ → List ℚ → (ℚ → ℚ)

/-- An interpolated disable signal as used inside `state_func`: the float
returned by the adapter is tested for Python truthiness (nonzero). -/
def truthySignal (f : ℚ → ℚ) : ℚ → Bool :=
  fun s => decide (f s ≠ 0)

/-- The fitted parameter dict returned by `fit_controller`: the four gains
plus the bound `setpt`/`disable` interpolation adapters. -/
structure FitParam where
  dcoef : ℚ
  pgain : ℚ
  igain : ℚ
  ileak : ℚ
  setpt : ℚ → ℚ
  disable : ℚ → Bool

/-- Embeds `fit_controller` (model_fitting.py lines 188-307): validate the variant
while building the bound list, build the two interpolation adapters, run
the global optimizer on `cost_func`, and unpack the winning vector into the
named gain fields (unused gains forced to `0.0`) together with the bound
signal adapters. -/
def fit_controller (opt : Optimizer) (interp : Interp) (ivp : SolveIvp)
    (t omega setpt disable : List ℚ) (bounds : String → ℚ × ℚ)
    (controller : String) (disp_cost : Bool) : Except PyErr FitParam := do
  let bs ← select_bounds bounds controller
  let setpt_func := interp t setpt
  let disable_func := truthySignal (interp t disable)
  let results := opt
    (fun xv => cost_func ivp xv t omega setpt_func disable_func disp_cost controller)
    bs
  let g ← unpack_gains results.x controller
  pure ⟨g.dcoef, g.pgain, g.igain, g.ileak, setpt_func, disable_func⟩

/-- A raw dataset dict as handed to `ensemble_fit_controller`: sampled
time, angular velocity, set-point and disable sequences. -/
structure RawDataset where
  t : List ℚ
  omega : List ℚ
  setpt : List ℚ
  disable : List ℚ

/-- The per-dataset adapter installation of `ensemble_fit_controller`
(model_fitting.py lines 69-73): copy each dataset and add its
`setpt_func`/`disable_func` interpolation adapters. -/
def attachAdapters (interp : Interp) (ds : RawDataset) : Dataset :=
  ⟨ds.t, ds.omega, interp ds.t ds.setpt, truthySignal (interp ds.t ds.disable)⟩

/-- Embeds `ensemble_fit_controller` (model_fitting.py lines 6-113): validate the
variant while building the bound list, attach per-dataset adapters, run the
global optimizer on `ensemble_cost_func`, and unpack the winning vector
into the named gain fields (unused gains forced to `0.0`; no signal
adapters are bound in the ensemble result). -/
def ensemble_fit_controller (opt : Optimizer) (interp : Interp)
    (ivp : SolveIvp) (datasets : List RawDataset) (bounds : String → ℚ × ℚ)
    (controller : String) (disp_cost : Bool) : Except PyErr GainParam := do
  let bs ← select_bounds bounds controller
  let dss := datasets.map (attachAdapters interp)
  let results := opt
    (fun xv => ensemble_cost_func ivp xv dss disp_cost controller)
    bs
  unpack_gains results.x controller

/-! ### Concrete instances used to exercise the definitions -/

/-- The constant-zero signal (a degenerate set-point). -/
def zeroSignal : ℚ → ℚ := fun _ => 0

/-- A disable signal that is true at all times. -/
def alwaysOn : ℚ → Bool := fun _ => true

/-- Embeds `false_func` of src/lpi_control_demo/utility_funcs.py: always false. -/
def false_func : ℚ → Bool := fun _ => false

/-- A demonstration controller with all four gains populated. -/
def cDemo : ControllerParam := ⟨1, 2, 3, 4, zeroSignal, false_func⟩

/-- A controller with only damping (`dcoef = 1`), whose system matrix
`[[-1, 1], [0, 0]]` has eigenvalue `0`. -/
def cDamp : ControllerParam := ⟨1, 0, 0, 0, zeroSignal, false_func⟩

/-- A permanently disabled controller. -/
def cDisA : ControllerParam := ⟨1, 2, 3, 4, fun _ => 5, alwaysOn⟩

/-- A permanently disabled controller agreeing with `cDisA` on `dcoef` and
`ileak` only. -/
def cDisB : ControllerParam := ⟨1, 7, 9, 4, zeroSignal, alwaysOn⟩

/-- A solver instance that converges and returns all-zero solution rows of
the requested length. -/
def okIvp : SolveIvp := fun _f _span _y0 t_eval _method _max_step =>
  ⟨true, (t_eval.map (fun _ => 0), t_eval.map (fun _ => 0))⟩

/-- A solver instance that reports non-convergence (`success = false`)
while still carrying a (partial) solution array. -/
def badIvp : SolveIvp := fun _f _span _y0 _t_eval _method _max_step =>
  ⟨false, ([1], [2])⟩

/-- An optimizer instance satisfying the scipy contract
`len(results.x) == len(bounds)`: it returns the vector of lower bounds. -/
def lbOpt : Optimizer := fun _obj bl => ⟨bl.map Prod.fst⟩

/-- An interpolation collaborator instance returning the zero signal. -/
def zeroInterp : Interp := fun _t _data => zeroSignal

/-- A bounds dictionary assigning `(0, 1)` to every parameter name. -/
def unitBounds : String → ℚ × ℚ := fun _ => (0, 1)

/-- A dataset whose observed `omega` is identically zero. -/
def dsZero : Dataset := ⟨[0, 1], [0, 0], zeroSignal, false_func⟩

/-- A dataset whose observed `omega` is identically one. -/
def dsOne : Dataset := ⟨[0, 1], [1, 1], zeroSignal, false_func⟩

/-- A raw (adapter-free) dataset. -/
def rawDs : RawDataset := ⟨[0, 1], [0, 0], [0, 0], [0, 0]⟩

/-! ### Helper lemmas -/

theorem pyIdx_ok {l : List ℚ} {i : ℕ} (h : i < l.length) :
    pyIdx l i = Except.ok (l.get ⟨i, h⟩) := by
  simp [pyIdx, List.getElem?_eq_getElem h]

theorem solve_short (ivp : SolveIvp) (c : ControllerParam)
    (y_init : Option (ℚ × ℚ)) (method : String) (t_vals : List ℚ)
    (hlen : t_vals.length < 2) :
    solve ivp c t_vals y_init method = Except.error PyErr.indexError := by
  match t_vals with
  | [] => rfl
  | [x] => rfl
  | a :: b :: rest => simp only [List.length_cons] at hlen; omega

theorem except_bind_pure {α : Type} (e : Except PyErr α) :
    (do let v ← e; pure v : Except PyErr α) = e := by
  cases e <;> rfl

theorem zip_sq_sum_nonneg (a b : List ℚ) :
    0 ≤ (List.zipWith (fun u v => (u - v) ^ 2) a b).sum := by
  induction a generalizing b with
  | nil => simp
  | cons x xs ih =>
    cases b with
    | nil => simp
    | cons y ys =>
      simp only [List.zipWith_cons_cons, List.sum_cons]
      have h1 : (0 : ℚ) ≤ (x - y) ^ 2 := sq_nonneg _
      have h2 := ih ys
      linarith

theorem zip_sq_sum_eq_zero_iff (a b : List ℚ) (h : a.length = b.length) :
    (List.zipWith (fun u v => (u - v) ^ 2) a b).sum = 0 ↔ a = b := by
  induction a generalizing b with
  | nil =>
    cases b with
    | nil => simp
    | cons y ys => simp at h
  | cons x xs ih =>
    cases b with
    | nil => simp at h
    | cons y ys =>
      simp only [List.length_cons, Nat.add_right_cancel_iff] at h
      simp only [List.zipWith_cons_cons, List.sum_cons]
      rw [add_eq_zero_iff_of_nonneg (sq_nonneg _) (zip_sq_sum_nonneg xs ys)]
      rw [pow_eq_zero_iff (by decide : 2 ≠ 0), sub_eq_zero, ih ys h]
      simp

theorem sq_residual_cost_eq (omega_fit omega : List ℚ)
    (hlen : omega_fit.length = omega.length) :
    sq_residual_cost omega_fit omega =
      Except.ok ((List.zipWith (fun u v => (u - v) ^ 2) omega_fit omega).sum
        / (omega.length : ℚ)) := by
  rw [sq_residual_cost, npSub, if_pos hlen]
  show Except.ok _ = _
  rw [List.map_zipWith]

theorem cost_func_eq_dataset_cost (ivp : SolveIvp) (x t omega : List ℚ)
    (setpt_func : ℚ → ℚ) (disable_func : ℚ → Bool) (disp_cost : Bool)
    (controller : String) (g : GainParam)
    (hg : unpack_gains x controller = Except.ok g) :
    cost_func ivp x t omega setpt_func disable_func disp_cost controller =
      dataset_cost ivp g t omega setpt_func disable_func := by
  rw [cost_func, hg]
  show (do
    let cost ← dataset_cost ivp g t omega setpt_func disable_func
    pure cost : Except PyErr ℚ) = _
  exact except_bind_pure _

theorem mapM_dataset_cost (ivp : SolveIvp) (g : GainParam)
    (dss : List Dataset) (cs : List ℚ)
    (h : List.Forall₂ (fun ds c =>
      dataset_cost ivp g ds.t ds.omega ds.setpt_func ds.disable_func =
        Except.ok c) dss cs) :
    dss.mapM (fun ds =>
        dataset_cost ivp g ds.t ds.omega ds.setpt_func ds.disable_func) =
      Except.ok cs := by
  induction h with
  | nil => rfl
  | cons hd _tl ih =>
    rw [List.mapM_cons, hd, ih]
    rfl

theorem ensemble_cost_func_eval (ivp : SolveIvp) (x : List ℚ)
    (datasets : List Dataset) (disp_cost : Bool) (controller : String)
    (g : GainParam) (cs : List ℚ)
    (hg : unpack_gains x controller = Except.ok g)
    (hcs : List.Forall₂ (fun ds c =>
      dataset_cost ivp g ds.t ds.omega ds.setpt_func ds.disable_func =
        Except.ok c) datasets cs)
    (hne : datasets ≠ []) :
    ensemble_cost_func ivp x datasets disp_cost controller =
      if disp_cost then Except.error (PyErr.nameError "totalcost")
      else Except.ok (cs.sum / (datasets.length : ℚ)) := by
  rw [ensemble_cost_func, hg]
  show (do
    let costs ← datasets.mapM (fun ds =>
      dataset_cost ivp g ds.t ds.omega ds.setpt_func ds.disable_func)
    if datasets.length = 0 then
      Except.error PyErr.zeroDivisionError
    else do
      let total_cost := costs.sum / (datasets.length : ℚ)
      if disp_cost then
        Except.error (PyErr.nameError "totalcost")
      else
        pure total_cost : Except PyErr ℚ) = _
  rw [mapM_dataset_cost ivp g datasets cs hcs]
  have h0 : ¬ datasets.length = 0 := fun h => hne (List.length_eq_zero.mp h)
  show (if datasets.length = 0 then _ else _) = _
  rw [if_neg h0]
  cases disp_cost <;> rfl

theorem unpack_gains_p (x : List ℚ) (hx : x.length = 2) :
    ∃ a b : ℚ, unpack_gains x "p" = Except.ok ⟨a, b, 0, 0⟩ := by
  obtain ⟨a, b, rfl⟩ := List.length_eq_two.mp hx
  exact ⟨a, b, rfl⟩

theorem unpack_gains_pi (x : List ℚ) (hx : x.length = 3) :
    ∃ a b c : ℚ, unpack_gains x "pi" = Except.ok ⟨a, b, c, 0⟩ := by
  obtain ⟨a, b, c, rfl⟩ := List.length_eq_three.mp hx
  exact ⟨a, b, c, rfl⟩

theorem fit_controller_ok (opt : Optimizer) (interp : Interp)
    (ivp : SolveIvp) (t omega setpt disable : List ℚ)
    (bounds : String → ℚ × ℚ) (controller : String) (disp_cost : Bool)
    (bs : List (ℚ × ℚ)) (g : GainParam)
    (hb : select_bounds bounds controller = Except.ok bs)
    (hg : unpack_gains
      (opt (fun xv => cost_func ivp xv t omega (interp t setpt)
        (truthySignal (interp t disable)) disp_cost controller) bs).x
      controller = Except.ok g) :
    fit_controller opt interp ivp t omega setpt disable bounds controller
        disp_cost =
      Except.ok ⟨g.dcoef, g.pgain, g.igain, g.ileak, interp t setpt,
        truthySignal (interp t disable)⟩ := by
  rw [fit_controller, hb]
  show (do
    let g' ← unpack_gains
      (opt (fun xv => cost_func ivp xv t omega (interp t setpt)
        (truthySignal (interp t disable)) disp_cost controller) bs).x
      controller
    pure (⟨g'.dcoef, g'.pgain, g'.igain, g'.ileak, interp t setpt,
      truthySignal (interp t disable)⟩ : FitParam) :
      Except PyErr FitParam) = _
  rw [hg]
  rfl

theorem ensemble_fit_controller_ok (opt : Optimizer) (interp : Interp)
    (ivp : SolveIvp) (datasets : List RawDataset)
    (bounds : String → ℚ × ℚ) (controller : String) (disp_cost : Bool)
    (bs : List (ℚ × ℚ)) (g : GainParam)
    (hb : select_bounds bounds controller = Except.ok bs)
    (hg : unpack_gains
      (opt (fun xv => ensemble_cost_func ivp xv
        (datasets.map (attachAdapters interp)) disp_cost controller) bs).x
      controller = Except.ok g) :
    ensemble_fit_controller opt interp ivp datasets bounds controller
        disp_cost = Except.ok g := by
  rw [ensemble_fit_controller, hb]
  show unpack_gains
    (opt (fun xv => ensemble_cost_func ivp xv
      (datasets.map (attachAdapters interp)) disp_cost controller) bs).x
    controller = _
  exact hg

theorem solve_cons_cons (ivp : SolveIvp) (c : ControllerParam)
    (y_init : Option (ℚ × ℚ)) (method : String) (a b : ℚ)
    (rest : List ℚ) :
    solve ivp c (a :: b :: rest) y_init method =
      Except.ok (ivp (state_func c)
        (a, (a :: b :: rest).getLast (List.cons_ne_nil a (b :: rest)))
        (y_init.getD (0, 0)) (a :: b :: rest) method (b - a)).y := by
  rw [solve]
  simp only [pyIdx, pyIdxLast,
    List.getLast?_eq_getLast_of_ne_nil (List.cons_ne_nil a (b :: rest))]
  rfl

/-! ### Claims -/

/-- C1: for every time `t` and state `(y0, y1)`, the controller state
derivative equals the spec's formulas: when the disable signal is true at
`t`, `dy0 = -dcoef*y0 + y1` and `dy1 = -ileak*y1`; otherwise, with
`err = setpoint(t) - y0`, `dy0 = -dcoef*y0 + y1 + pgain*err` and
`dy1 = -ileak*y1 + igain*err`. -/
theorem state_func_matches_spec (c : ControllerParam) (t : ℚ) (y : ℚ × ℚ) :
    state_func c t y =
      if c.disable t then
        (-c.dcoef * y.1 + y.2, -c.ileak * y.2)
      else
        (-c.dcoef * y.1 + y.2 + c.pgain * (c.setpt t - y.1),
         -c.ileak * y.2 + c.igain * (c.setpt t - y.1)) := by
  simp [state_func]

/-- C5: for every parameter set, the diagnostics are computed by the exact
formulas `trace = -(pgain + dcoef + ileak)`,
`determinant = ileak*(pgain + dcoef) + igain`, and
`discriminant = trace^2 - 4*determinant`, so
`discriminant = trace^2 - 4*determinant` holds exactly, and each value
returned as an eigenvalue is a root of
`lambda^2 - trace*lambda + determinant = 0`. -/
theorem diagnostics_exact (c : ControllerParam) :
    get_trace c = -(c.pgain + c.dcoef + c.ileak) ∧
    get_determinant c = c.ileak * (c.pgain + c.dcoef) + c.igain ∧
    get_discriminant c = (get_trace c) ^ 2 - 4 * get_determinant c ∧
    ∀ lam : ℂ, is_eigenvalue c lam →
      lam ^ 2 - (get_trace c : ℂ) * lam + (get_determinant c : ℂ) = 0 := by
  refine ⟨rfl, rfl, rfl, fun lam h => ?_⟩
  unfold is_eigenvalue sysMatrix at h
  rw [Matrix.det_fin_two] at h
  simp [Matrix.map_apply, Matrix.sub_apply, Matrix.smul_apply,
    Matrix.one_apply] at h
  unfold get_trace get_determinant
  push_cast
  linear_combination h

/-- Witness for C5: the controller `cDamp` has system matrix
`[[-1, 1], [0, 0]]`, for which `0` is an eigenvalue, and `0` is a root of
its characteristic polynomial. -/
theorem diagnostics_exact_witness :
    (0 : ℂ) ^ 2 - ((get_trace cDamp : ℚ) : ℂ) * 0 +
      ((get_determinant cDamp : ℚ) : ℂ) = 0 :=
  (diagnostics_exact cDamp).2.2.2 0 (by
    unfold is_eigenvalue sysMatrix cDamp
    rw [Matrix.det_fin_two]
    simp [Matrix.map_apply, Matrix.sub_apply, Matrix.smul_apply,
      Matrix.one_apply])

/-- C10: every call to `LPIController.solve` requires a time array with at
least two points: the implementation unconditionally computes `max_step` as
`t_vals[1] - t_vals[0]` (with no caller override), so a call with a zero-
or one-element time array fails with an index error instead of returning a
trajectory, while on two or more points the solver is invoked with exactly
that `max_step`. -/
theorem solve_requires_two_time_points (ivp : SolveIvp)
    (c : ControllerParam) (y_init : Option (ℚ × ℚ)) (method : String) :
    (∀ t_vals : List ℚ, t_vals.length < 2 →
      solve ivp c t_vals y_init method = Except.error PyErr.indexError) ∧
    (∀ (a b : ℚ) (rest : List ℚ),
      solve ivp c (a :: b :: rest) y_init method =
        Except.ok (ivp (state_func c)
          (a, (a :: b :: rest).getLast (List.cons_ne_nil a (b :: rest)))
          (y_init.getD (0, 0)) (a :: b :: rest) method (b - a)).y) :=
  ⟨solve_short ivp c y_init method, solve_cons_cons ivp c y_init method⟩

/-- Witness for C10: `solve` on the empty time array fails with
`IndexError`. -/
theorem solve_requires_two_time_points_witness :
    solve okIvp cDemo [] none "RK45" = Except.error PyErr.indexError :=
  (solve_requires_two_time_points okIvp cDemo none "RK45").1 [] (by decide)

/-- Counterexample to C9 as stated: a solver instance that reports
non-convergence (`success = false`) does not make `solve` fail — `solve`
returns the solver's trajectory as a success value, and no
`IntegrationError` is raised (no such error exists in the code). -/
theorem solver_failure_not_raised :
    (badIvp (state_func cDemo) (0, 1) (0, 0) [0, 1] "RK45" 1).success
        = false ∧
    solve badIvp cDemo [0, 1] none "RK45" = Except.ok ([1], [2]) :=
  ⟨rfl, rfl⟩

/-- C9 amended: when the underlying ODE solver reports non-convergence,
`LPIController.solve` does not fail: it ignores the `success` flag and
returns the solver's (possibly partial or invalid) solution array as-is,
so no `IntegrationError` propagates to the caller of the cost
evaluator. -/
theorem solve_returns_y_despite_failure (ivp : SolveIvp)
    (c : ControllerParam) (a b : ℚ) (rest : List ℚ)
    (y_init : Option (ℚ × ℚ)) (method : String)
    (hfail : (ivp (state_func c)
        (a, (a :: b :: rest).getLast (List.cons_ne_nil a (b :: rest)))
        (y_init.getD (0, 0)) (a :: b :: rest) method (b - a)).success
        = false) :
    solve ivp c (a :: b :: rest) y_init method =
      Except.ok (ivp (state_func c)
        (a, (a :: b :: rest).getLast (List.cons_ne_nil a (b :: rest)))
        (y_init.getD (0, 0)) (a :: b :: rest) method (b - a)).y :=
  solve_cons_cons ivp c y_init method a b rest

/-- Witness for C9 amended: `solve` with the non-convergent solver instance
returns that solver's trajectory as a success value. -/
theorem solve_returns_y_despite_failure_witness :
    solve badIvp cDemo [0, 1] none "RK45" = Except.ok ([1], [2]) :=
  solve_returns_y_despite_failure badIvp cDemo 0 1 [] none "RK45" rfl

/-- C2: for every parameter vector, dataset, and controller variant, the
single-dataset cost equals `sum((omega_sim - omega_obs)^2) / N` where `N`
is the number of samples; it is non-negative, and it is zero if and only if
the simulated angular velocity matches the observed `omega` at every
sample. -/
theorem cost_func_is_mse (ivp : SolveIvp) (x t omega : List ℚ)
    (setpt_func : ℚ → ℚ) (disable_func : ℚ → Bool) (disp_cost : Bool)
    (controller : String) (g : GainParam) (row0 row1 : List ℚ)
    (hg : unpack_gains x controller = Except.ok g)
    (hs : solve ivp (mkController g setpt_func disable_func) t none "RK23" =
      Except.ok (row0, row1))
    (hlen : row0.length = omega.length)
    (hne : omega ≠ []) :
    cost_func ivp x t omega setpt_func disable_func disp_cost controller =
      Except.ok ((List.zipWith (fun u v => (u - v) ^ 2) row0 omega).sum /
        (omega.length : ℚ)) ∧
    0 ≤ (List.zipWith (fun u v => (u - v) ^ 2) row0 omega).sum /
        (omega.length : ℚ) ∧
    ((List.zipWith (fun u v => (u - v) ^ 2) row0 omega).sum /
        (omega.length : ℚ) = 0 ↔ row0 = omega) := by
  have hN : (0 : ℚ) < (omega.length : ℚ) := by
    have : omega.length ≠ 0 := fun h0 => hne (List.length_eq_zero.mp h0)
    exact_mod_cast Nat.pos_of_ne_zero this
  refine ⟨?_, ?_, ?_⟩
  · rw [cost_func_eq_dataset_cost ivp x t omega setpt_func disable_func
      disp_cost controller g hg]
    rw [dataset_cost, hs]
    show sq_residual_cost row0 omega = _
    exact sq_residual_cost_eq row0 omega hlen
  · exact div_nonneg (zip_sq_sum_nonneg row0 omega) (le_of_lt hN)
  · rw [div_eq_zero_iff]
    constructor
    · intro hc
      rcases hc with hc | hc
      · exact (zip_sq_sum_eq_zero_iff row0 omega hlen).mp hc
      · exact absurd hc (ne_of_gt hN)
    · intro hab
      exact Or.inl ((zip_sq_sum_eq_zero_iff row0 omega hlen).mpr hab)

/-- Witness for C2: with the converging all-zero solver, parameter vector
`[1, 1]` and variant `"p"`, the cost on a dataset with observed
`omega = [0, 0]` is exactly the mean squared residual. -/
theorem cost_func_is_mse_witness :
    cost_func okIvp [1, 1] [0, 1] [0, 0] zeroSignal false_func false "p" =
      Except.ok ((List.zipWith (fun u v => (u - v) ^ 2)
        ([0, 0] : List ℚ) ([0, 0] : List ℚ)).sum /
          ((([0, 0] : List ℚ).length : ℕ) : ℚ)) :=
  (cost_func_is_mse okIvp [1, 1] [0, 1] [0, 0] zeroSignal false_func false
    "p" ⟨1, 1, 0, 0⟩ [0, 0] [0, 0] rfl rfl rfl
    (List.cons_ne_nil 0 [0])).1

/-- C3: for every parameter vector and every non-empty list of datasets,
the ensemble cost equals the arithmetic mean of the single-dataset costs
computed independently per dataset with the same parameter vector and that
dataset's own signal adapters; in particular, for two datasets with
individual costs `c1` and `c2` the ensemble cost equals `(c1 + c2) / 2`. -/
theorem ensemble_cost_is_mean (ivp : SolveIvp) (x : List ℚ)
    (controller : String) (g : GainParam) (datasets : List Dataset)
    (cs : List ℚ)
    (hg : unpack_gains x controller = Except.ok g)
    (hne : datasets ≠ [])
    (hcs : List.Forall₂ (fun ds c =>
      cost_func ivp x ds.t ds.omega ds.setpt_func ds.disable_func false
        controller = Except.ok c) datasets cs) :
    ensemble_cost_func ivp x datasets false controller =
      Except.ok (cs.sum / (cs.length : ℚ)) ∧
    ∀ c1 c2 : ℚ, cs = [c1, c2] →
      ensemble_cost_func ivp x datasets false controller =
        Except.ok ((c1 + c2) / 2) := by
  have hdc : List.Forall₂ (fun ds c =>
      dataset_cost ivp g ds.t ds.omega ds.setpt_func ds.disable_func =
        Except.ok c) datasets cs := by
    refine hcs.imp ?_
    intro ds c h
    rw [← cost_func_eq_dataset_cost ivp x ds.t ds.omega ds.setpt_func
      ds.disable_func false controller g hg]
    exact h
  have hlen : datasets.length = cs.length := hcs.length_eq
  have hmain : ensemble_cost_func ivp x datasets false controller =
      Except.ok (cs.sum / (cs.length : ℚ)) := by
    rw [ensemble_cost_func_eval ivp x datasets false controller g cs hg hdc
      hne, hlen]
    rfl
  refine ⟨hmain, fun c1 c2 hcs2 => ?_⟩
  rw [hmain, hcs2]
  norm_num

/-- Witness for C3: with the converging all-zero solver and variant `"p"`,
the datasets `dsZero` and `dsOne` have individual costs `0` and `1`, and
the ensemble cost is `(0 + 1) / 2`. -/
theorem ensemble_cost_is_mean_witness :
    ensemble_cost_func okIvp [1, 1] [dsZero, dsOne] false "p" =
      Except.ok ((0 + 1) / 2) :=
  (ensemble_cost_is_mean okIvp [1, 1] "p" ⟨1, 1, 0, 0⟩ [dsZero, dsOne]
    [0, 1] rfl (List.cons_ne_nil dsZero [dsOne])
    (List.Forall₂.cons (by
        show sq_residual_cost [0, 0] [0, 0] = Except.ok 0
        rw [sq_residual_cost_eq [0, 0] [0, 0] rfl]
        norm_num)
      (List.Forall₂.cons (by
        show sq_residual_cost [0, 0] [1, 1] = Except.ok 1
        rw [sq_residual_cost_eq [0, 0] [1, 1] rfl]
        norm_num) List.Forall₂.nil))).2 0 1 rfl

/-- C4: for every pair of controllers whose disable signal is true at all
times and that agree on `dcoef` and `ileak` but differ arbitrarily in
`pgain`, `igain`, and setpoint signal, and for every initial state and time
grid, the two produce identical state derivatives and hence identical
trajectories (the solver output is a function of the state-derivative
function handed to it): the permanently disabled trajectory depends only on
`dcoef` and `ileak`. -/
theorem disabled_trajectory_independent (c1 c2 : ControllerParam)
    (hd : c1.dcoef = c2.dcoef) (hl : c1.ileak = c2.ileak)
    (h1 : ∀ t, c1.disable t = true) (h2 : ∀ t, c2.disable t = true) :
    state_func c1 = state_func c2 ∧
    ∀ (ivp : SolveIvp) (t_vals : List ℚ) (y_init : Option (ℚ × ℚ))
      (method : String),
      solve ivp c1 t_vals y_init method =
        solve ivp c2 t_vals y_init method := by
  have hsf : state_func c1 = state_func c2 := by
    funext t y
    simp [state_func, h1 t, h2 t, hd, hl]
  exact ⟨hsf, fun ivp t_vals y_init method => by rw [solve, solve, hsf]⟩

/-- Witness for C4: the permanently disabled controllers `cDisA` and
`cDisB` agree on `dcoef` and `ileak` but differ in `pgain`, `igain` and
set-point, yet have identical state-derivative functions. -/
theorem disabled_trajectory_independent_witness :
    state_func cDisA = state_func cDisB :=
  (disabled_trajectory_independent cDisA cDisB rfl rfl
    (fun _ => rfl) (fun _ => rfl)).1

/-- C6: for every controller variant name not in {p, pi, lpi} (for example
"pid"), both the fitting entry points (`fit_controller`,
`ensemble_fit_controller`) and the cost-evaluation entry points
(`cost_func`, `ensemble_cost_func`) raise the
unknown-controller-type configuration error before any simulation or
optimizer invocation occurs (the outcome is the same for every optimizer
and solver collaborator, so neither is ever consulted). -/
theorem unknown_variant_fails_fast (controller : String)
    (hp : controller ≠ "p") (hpi : controller ≠ "pi")
    (hlpi : controller ≠ "lpi") :
    ∀ (opt : Optimizer) (interp : Interp) (ivp : SolveIvp)
      (t omega setpt disable : List ℚ) (bounds : String → ℚ × ℚ)
      (disp_cost : Bool) (x : List ℚ) (setpt_func : ℚ → ℚ)
      (disable_func : ℚ → Bool) (dss : List Dataset)
      (raws : List RawDataset),
      fit_controller opt interp ivp t omega setpt disable bounds controller
          disp_cost =
        Except.error
          (PyErr.valueError ("unknown controller type " ++ controller)) ∧
      ensemble_fit_controller opt interp ivp raws bounds controller
          disp_cost =
        Except.error
          (PyErr.valueError ("unknown controller type " ++ controller)) ∧
      cost_func ivp x t omega setpt_func disable_func disp_cost controller =
        Except.error
          (PyErr.valueError ("unknown controller type " ++ controller)) ∧
      ensemble_cost_func ivp x dss disp_cost controller =
        Except.error
          (PyErr.valueError ("unknown controller type " ++ controller)) := by
  intro opt interp ivp t omega setpt disable bounds disp_cost x setpt_func
    disable_func dss raws
  refine ⟨?_, ?_, ?_, ?_⟩ <;>
    (simp [fit_controller, ensemble_fit_controller, cost_func,
      ensemble_cost_func, select_bounds, unpack_gains, hp, hpi, hlpi];
     try rfl)

/-- Witness for C6: the variant name `"pid"` is rejected with the
unknown-controller-type error by all four entry points. -/
theorem unknown_variant_fails_fast_witness :
    fit_controller lbOpt zeroInterp okIvp [0, 1] [0, 0] [0, 0] [0, 0]
        unitBounds "pid" false =
      Except.error
        (PyErr.valueError ("unknown controller type " ++ "pid")) ∧
    ensemble_fit_controller lbOpt zeroInterp okIvp [rawDs] unitBounds "pid"
        false =
      Except.error
        (PyErr.valueError ("unknown controller type " ++ "pid")) ∧
    cost_func okIvp [1, 1] [0, 1] [0, 0] zeroSignal false_func false
        "pid" =
      Except.error
        (PyErr.valueError ("unknown controller type " ++ "pid")) ∧
    ensemble_cost_func okIvp [1, 1] [dsZero] false "pid" =
      Except.error
        (PyErr.valueError ("unknown controller type " ++ "pid")) :=
  unknown_variant_fails_fast "pid" (by decide) (by decide) (by decide)
    lbOpt zeroInterp okIvp [0, 1] [0, 0] [0, 0] [0, 0] unitBounds false
    [1, 1] zeroSignal false_func [dsZero] [rawDs]

/-- C7 evaluated at a failing input: enabling per-evaluation cost logging
(`disp_cost = true`) makes `ensemble_cost_func` raise
`NameError('totalcost')` (the print statement references the undefined
name `totalcost` instead of `total_cost`), whereas the same call with
logging disabled succeeds; `cost_func` itself is unaffected by the flag. -/
theorem ensemble_disp_cost_raises :
    ensemble_cost_func okIvp [1, 1] [dsZero] true "p" =
      Except.error (PyErr.nameError "totalcost") ∧
    ensemble_cost_func okIvp [1, 1] [dsZero] false "p" = Except.ok 0 ∧
    cost_func okIvp [1, 1] [0, 1] [0, 0] zeroSignal false_func true "p" =
      cost_func okIvp [1, 1] [0, 1] [0, 0] zeroSignal false_func false
        "p" := by
  have hd : dataset_cost okIvp ⟨1, 1, 0, 0⟩ dsZero.t dsZero.omega
      dsZero.setpt_func dsZero.disable_func = Except.ok 0 := by
    show sq_residual_cost [0, 0] [0, 0] = Except.ok 0
    rw [sq_residual_cost_eq [0, 0] [0, 0] rfl]
    norm_num
  have hf : List.Forall₂ (fun ds c =>
      dataset_cost okIvp ⟨1, 1, 0, 0⟩ ds.t ds.omega ds.setpt_func
        ds.disable_func = Except.ok c) [dsZero] [0] :=
    List.Forall₂.cons hd List.Forall₂.nil
  refine ⟨?_, ?_, rfl⟩
  · have h := ensemble_cost_func_eval okIvp [1, 1] [dsZero] true "p"
      ⟨1, 1, 0, 0⟩ [0] rfl hf (List.cons_ne_nil dsZero [])
    simpa using h
  · have h := ensemble_cost_func_eval okIvp [1, 1] [dsZero] false "p"
      ⟨1, 1, 0, 0⟩ [0] rfl hf (List.cons_ne_nil dsZero [])
    simpa using h

/-- C8: for every fit performed with controller variant "p", the returned
parameter record has `igain == 0` and `ileak == 0` exactly, regardless of
the bounds supplied for those fields; for variant "pi", `ileak == 0`
exactly — unused gains are forced to `0`, never left undefined.  This
holds for every optimizer collaborator satisfying the scipy contract
`len(results.x) == len(bounds)`, for both `fit_controller` and
`ensemble_fit_controller`. -/
theorem p_pi_variants_force_zero_gains (opt : Optimizer) (interp : Interp)
    (ivp : SolveIvp) (t omega setpt disable : List ℚ)
    (bounds : String → ℚ × ℚ) (disp_cost : Bool)
    (datasets : List RawDataset)
    (hopt : ∀ (obj : List ℚ → Except PyErr ℚ) (bl : List (ℚ × ℚ)),
      (opt obj bl).x.length = bl.length) :
    (∃ p : FitParam,
      fit_controller opt interp ivp t omega setpt disable bounds "p"
          disp_cost = Except.ok p ∧
      p.igain = 0 ∧ p.ileak = 0) ∧
    (∃ p : FitParam,
      fit_controller opt interp ivp t omega setpt disable bounds "pi"
          disp_cost = Except.ok p ∧
      p.ileak = 0) ∧
    (∃ g : GainParam,
      ensemble_fit_controller opt interp ivp datasets bounds "p"
          disp_cost = Except.ok g ∧
      g.igain = 0 ∧ g.ileak = 0) ∧
    (∃ g : GainParam,
      ensemble_fit_controller opt interp ivp datasets bounds "pi"
          disp_cost = Except.ok g ∧
      g.ileak = 0) := by
  refine ⟨?_, ?_, ?_, ?_⟩
  · have hx := hopt
      (fun xv => cost_func ivp xv t omega (interp t setpt)
        (truthySignal (interp t disable)) disp_cost "p")
      [bounds "dcoef", bounds "pgain"]
    obtain ⟨a, b, hab⟩ := unpack_gains_p _ hx
    exact ⟨⟨a, b, 0, 0, interp t setpt, truthySignal (interp t disable)⟩,
      fit_controller_ok opt interp ivp t omega setpt disable bounds "p"
        disp_cost [bounds "dcoef", bounds "pgain"] ⟨a, b, 0, 0⟩ rfl hab,
      rfl, rfl⟩
  · have hx := hopt
      (fun xv => cost_func ivp xv t omega (interp t setpt)
        (truthySignal (interp t disable)) disp_cost "pi")
      [bounds "dcoef", bounds "pgain", bounds "igain"]
    obtain ⟨a, b, c, habc⟩ := unpack_gains_pi _ hx
    exact ⟨⟨a, b, c, 0, interp t setpt, truthySignal (interp t disable)⟩,
      fit_controller_ok opt interp ivp t omega setpt disable bounds "pi"
        disp_cost [bounds "dcoef", bounds "pgain", bounds "igain"]
        ⟨a, b, c, 0⟩ rfl habc,
      rfl⟩
  · have hx := hopt
      (fun xv => ensemble_cost_func ivp xv
        (datasets.map (attachAdapters interp)) disp_cost "p")
      [bounds "dcoef", bounds "pgain"]
    obtain ⟨a, b, hab⟩ := unpack_gains_p _ hx
    exact ⟨⟨a, b, 0, 0⟩,
      ensemble_fit_controller_ok opt interp ivp datasets bounds "p"
        disp_cost [bounds "dcoef", bounds "pgain"] ⟨a, b, 0, 0⟩ rfl hab,
      rfl, rfl⟩
  · have hx := hopt
      (fun xv => ensemble_cost_func ivp xv
        (datasets.map (attachAdapters interp)) disp_cost "pi")
      [bounds "dcoef", bounds "pgain", bounds "igain"]
    obtain ⟨a, b, c, habc⟩ := unpack_gains_pi _ hx
    exact ⟨⟨a, b, c, 0⟩,
      ensemble_fit_controller_ok opt interp ivp datasets bounds "pi"
        disp_cost [bounds "dcoef", bounds "pgain", bounds "igain"]
        ⟨a, b, c, 0⟩ rfl habc,
      rfl⟩

/-- Witness for C8: with the lower-bound-returning optimizer instance, the
"p" and "pi" fits return records whose unused gains are exactly `0`, from
both fitting entry points. -/
theorem p_pi_variants_force_zero_gains_witness :
    (∃ p : FitParam,
      fit_controller lbOpt zeroInterp okIvp [0, 1] [0, 0] [0, 0] [0, 0]
          unitBounds "p" false = Except.ok p ∧
      p.igain = 0 ∧ p.ileak = 0) ∧
    (∃ p : FitParam,
      fit_controller lbOpt zeroInterp okIvp [0, 1] [0, 0] [0, 0] [0, 0]
          unitBounds "pi" false = Except.ok p ∧
      p.ileak = 0) ∧
    (∃ g : GainParam,
      ensemble_fit_controller lbOpt zeroInterp okIvp [rawDs] unitBounds
          "p" false = Except.ok g ∧
      g.igain = 0 ∧ g.ileak = 0) ∧
    (∃ g : GainParam,
      ensemble_fit_controller lbOpt zeroInterp okIvp [rawDs] unitBounds
          "pi" false = Except.ok g ∧
      g.ileak = 0) :=
  p_pi_variants_force_zero_gains lbOpt zeroInterp okIvp [0, 1] [0, 0]
    [0, 0] [0, 0] unitBounds false [rawDs]
    (fun _obj bl => by simp [lbOpt])
